import Mathlib

set_option autoImplicit false

/-!
Shallow embedding of `include/bitmap/bitmap.hpp` (bebuch/bitmap):
a generic owning row-major 2D grid container `bitmap<ValueType>` with
bounds-checked coordinate access, resize, and sub-region extraction.

The geometric collaborators `point`, `size` and `rect` live in headers
that are not part of the source tree (`point.hpp`, `size.hpp`,
`rect.hpp`); they are modelled from the spec, which treats them as thin
value objects exposing only component accessors, `point_count` and the
positivity predicate.  `std::size_t` coordinates are modelled as `Nat`
(non-negative, as the spec requires); `std::vector<T>` is modelled as
`List T` (an owned contiguous sequence); a C++ function that can throw
is modelled as returning `Except bitmap_error`.
-/

/-- Modelled from the spec: the 2D point collaborator (`point.hpp` is not
in the source tree) — an immutable pair of unsigned coordinates `(x, y)`,
used only for addressing. -/
structure point where
  x : Nat
  y : Nat
deriving DecidableEq, Repr

/-- Modelled from the spec: the 2D size collaborator (`size.hpp` is not
in the source tree) — two non-negative integral dimensions
`(width, height)`. -/
structure size where
  width : Nat
  height : Nat
deriving DecidableEq, Repr

/-- Modelled from the spec: `point_count() = width * height`. -/
def size.point_count (s : size) : Nat :=
  s.width * s.height

/-- Modelled from the spec: the positivity predicate is true when both
dimensions are non-negative; in the unsigned model it is always
satisfied. -/
def size.is_positive (s : size) : Bool :=
  decide (0 ≤ s.width) && decide (0 ≤ s.height)

/-- Modelled from the spec: the rectangle collaborator (`rect.hpp` is not
in the source tree) — a position (top-left corner) plus a size. -/
structure rect where
  pos : point
  sz : size
deriving DecidableEq, Repr

/-- Modelled from the spec: accessor `rect::x()`. -/
def rect.x (r : rect) : Nat := r.pos.x

/-- Modelled from the spec: accessor `rect::y()`. -/
def rect.y (r : rect) : Nat := r.pos.y

/-- Modelled from the spec: accessor `rect::width()`. -/
def rect.width (r : rect) : Nat := r.sz.width

/-- Modelled from the spec: accessor `rect::height()`. -/
def rect.height (r : rect) : Nat := r.sz.height

/-- Modelled from the spec: accessor `rect::size()`. -/
def rect.size (r : rect) : size := r.sz

/-- Error conditions surfaced by the container: `std::out_of_range`
(negative size, or point outside the bitmap in the checked access path)
and the `std::logic_error` thrown by the sequence constructor on a
size/sequence-length mismatch. -/
inductive bitmap_error where
  | outOfRange
  | shapeMismatch
deriving DecidableEq, Repr

/-- The bitmap: a size `size_` and the owned row-major data field
`data_` (`std::vector<value_type>` modelled as a list). -/
structure bitmap (α : Type) where
  size_ : size
  data_ : List α
deriving DecidableEq, Repr

/-- Accessor `width()` (bitmap.hpp line 210). -/
def bitmap.width {α : Type} (b : bitmap α) : Nat := b.size_.width

/-- Accessor `height()` (bitmap.hpp line 215). -/
def bitmap.height {α : Type} (b : bitmap α) : Nat := b.size_.height

/-- Accessor `point_count()` (bitmap.hpp line 225): recomputed as
`size_.width() * size_.height()`. -/
def bitmap.point_count {α : Type} (b : bitmap α) : Nat :=
  b.size_.width * b.size_.height

/-- Helper `throw_if_size_is_negative` (bitmap.hpp line 341): throws
`std::out_of_range` when `size.is_positive()` is false. -/
def throw_if_size_is_negative (s : size) : Except bitmap_error Unit :=
  if ! s.is_positive then .error .outOfRange else .ok ()

/-- Constructor `bitmap(size, value)` (bitmap.hpp line 73): allocates
`size.point_count()` copies of `value` after the size validity gate. -/
def bitmap.mk_sized {α : Type} (s : size) (v : α) : Except bitmap_error (bitmap α) :=
  if ! s.is_positive then .error .outOfRange
  else .ok ⟨s, List.replicate s.point_count v⟩

/-- Constructor `bitmap(size, first, last)` (bitmap.hpp line 84): copies
the sequence into the data field, then checks the validity gate and that
the sequence length equals `size.point_count()`, throwing
`std::logic_error` otherwise. -/
def bitmap.mk_seq {α : Type} (s : size) (src : List α) : Except bitmap_error (bitmap α) :=
  if ! s.is_positive then .error .outOfRange
  else if src.length ≠ s.point_count then .error .shapeMismatch
  else .ok ⟨s, src⟩

/-- Constructor `bitmap(width, height, value)` (bitmap.hpp line 104). -/
def bitmap.mk_wh {α : Type} (w h : Nat) (v : α) : Except bitmap_error (bitmap α) :=
  bitmap.mk_sized ⟨w, h⟩ v

/-- Semantics of `std::vector::resize(n, v)`: keeps the first
`min n l.length` elements and appends copies of `v` when growing. -/
def vec_resize {α : Type} (l : List α) (n : Nat) (v : α) : List α :=
  if n ≤ l.length then l.take n
  else l ++ List.replicate (n - l.length) v

/-- Member `resize(size, value)` (bitmap.hpp line 199): validity gate,
then `data_.resize(size.point_count(), value)` and `size_ = size`. -/
def bitmap.resize {α : Type} (b : bitmap α) (s : size) (v : α) :
    Except bitmap_error (bitmap α) :=
  if ! s.is_positive then .error .outOfRange
  else .ok ⟨s, vec_resize b.data_ s.point_count v⟩

/-- Member `data_pos(point)` (bitmap.hpp line 277): the unchecked
coordinate-to-offset map `point.y() * width() + point.x()`. -/
def bitmap.data_pos {α : Type} (b : bitmap α) (p : point) : Nat :=
  p.y * b.width + p.x

/-- Free function `is_point_in_bitmap` (bitmap.hpp line 354). -/
def is_point_in_bitmap {α : Type} (b : bitmap α) (p : point) : Bool :=
  if p.x < 0 ∨ p.x ≥ b.width ∨ p.y < 0 ∨ p.y ≥ b.height then false else true

/-- Member `do_point` (bitmap.hpp line 313): unchecked read
`data_[data_pos(point)]`. -/
def bitmap.do_point {α : Type} [Inhabited α] (b : bitmap α) (p : point) : α :=
  b.data_.getD (b.data_pos p) default

/-- Checked element read `operator()(point)` in the DEBUG build
(bitmap.hpp line 263): `throw_if_out_of_range(point)` then
`do_point(point)`. -/
def bitmap.at_checked {α : Type} [Inhabited α] (b : bitmap α) (p : point) :
    Except bitmap_error α :=
  if ! is_point_in_bitmap b p then .error .outOfRange
  else .ok (b.do_point p)

/-- Write through the checked mutable reference `operator()(point)` in
the DEBUG build (bitmap.hpp line 250): after the range check, the write
lands at `data_[data_pos(point)]`. -/
def bitmap.set_checked {α : Type} (b : bitmap α) (p : point) (v : α) :
    Except bitmap_error (bitmap α) :=
  if ! is_point_in_bitmap b p then .error .outOfRange
  else .ok ⟨b.size_, b.data_.set (b.data_pos p) v⟩

/-- One `std::copy(in, in + n, out)` call on the data fields: element
`src[src_off + i]` overwrites `dst[dst_off + i]` for `i < n`, in
increasing order of `i`. -/
def copy_n {α : Type} [Inhabited α] (src : List α) :
    Nat → List α → Nat → Nat → List α
  | _, dst, _, 0 => dst
  | src_off, dst, dst_off, n + 1 =>
      copy_n src (src_off + 1)
        (dst.set dst_off (src.getD src_off default)) (dst_off + 1) n

/-- The row loop of `subbitmap` (bitmap.hpp line 294): for each
`y < y_end`, copy `x_end` elements from source offset `y * sw`
(`in_offset = data() + y * width()`) to result offset `y * dw`
(`out_offset = result.data() + y * result.width()`). -/
def copy_rows {α : Type} [Inhabited α] (src : List α) (sw dw x_end : Nat)
    (dst : List α) : Nat → List α
  | 0 => dst
  | y + 1 => copy_n src (y * sw) (copy_rows src sw dw x_end dst y) (y * dw) x_end

/-- Member `subbitmap(rect, value)` (bitmap.hpp line 283): allocate a
fresh `rect.size()` bitmap filled with `value`; if the rect origin is
outside the source, return it; otherwise clamp the extent and run the
row copy loop. -/
def bitmap.subbitmap {α : Type} [Inhabited α] (b : bitmap α) (r : rect) (v : α) :
    Except bitmap_error (bitmap α) :=
  match bitmap.mk_sized r.size v with
  | .error e => .error e
  | .ok result =>
    if b.width ≤ r.x ∨ b.height ≤ r.y then .ok result
    else
      let x_end := min r.width (b.width - r.x)
      let y_end := min r.height (b.height - r.y)
      .ok ⟨r.size, copy_rows b.data_ b.width r.width x_end result.data_ y_end⟩

/-- Iteration order `begin()`..`end()` (bitmap.hpp line 127): linear
traversal of the data field. -/
def bitmap.toList {α : Type} (b : bitmap α) : List α := b.data_

/-- Row-major enumeration of the coordinates of a grid of size `s`: all
of row 0 left to right, then row 1, and so on.  Independent reference
order used to state the layout claim about `data_pos`. -/
def row_major_points (s : size) : List point :=
  (List.range s.height).flatMap (fun y => (List.range s.width).map (fun x => ⟨x, y⟩))

/-- State of the caller right after `result = b.subbitmap(r, v)`: the
source bitmap as the call left it, paired with the returned bitmap.
`std::vector` value semantics make the two storages separately owned. -/
def bitmap.subbitmap_call {α : Type} [Inhabited α] (b : bitmap α) (r : rect) (v : α) :
    bitmap α × Except bitmap_error (bitmap α) :=
  (b, b.subbitmap r v)

/-- Mutation of the returned bitmap in the caller's state after a
`subbitmap` call: an element write through `operator()` lands in the
result's own data field; the source component is untouched
(`std::vector` value semantics, no shared storage). -/
def write_result {α : Type} (st : bitmap α × bitmap α) (p : point) (w : α) :
    bitmap α × bitmap α :=
  (st.1, ⟨st.2.size_, st.2.data_.set (st.2.data_pos p) w⟩)

/-- Mutation of the source bitmap in the caller's state after a
`subbitmap` call: an element write through `operator()` lands in the
source's own data field; the result component is untouched. -/
def write_source {α : Type} (st : bitmap α × bitmap α) (p : point) (w : α) :
    bitmap α × bitmap α :=
  (⟨st.1.size_, st.1.data_.set (st.1.data_pos p) w⟩, st.2)

/-- Grids reachable through the public interface: default construction,
the three value constructors, `resize`, checked element writes and
`subbitmap` applied to reachable grids. -/
inductive reachable (α : Type) [Inhabited α] : bitmap α → Prop where
  | default_bitmap : reachable α ⟨⟨0, 0⟩, []⟩
  | of_mk_sized (s : size) (v : α) (g : bitmap α) :
      bitmap.mk_sized s v = .ok g → reachable α g
  | of_mk_seq (s : size) (l : List α) (g : bitmap α) :
      bitmap.mk_seq s l = .ok g → reachable α g
  | of_mk_wh (w h : Nat) (v : α) (g : bitmap α) :
      bitmap.mk_wh w h v = .ok g → reachable α g
  | of_resize (b : bitmap α) (s : size) (v : α) (g : bitmap α) :
      reachable α b → b.resize s v = .ok g → reachable α g
  | of_set (b : bitmap α) (p : point) (v : α) (g : bitmap α) :
      reachable α b → b.set_checked p v = .ok g → reachable α g
  | of_subbitmap (b : bitmap α) (r : rect) (v : α) (g : bitmap α) :
      reachable α b → b.subbitmap r v = .ok g → reachable α g

/-! Helper lemmas about the embedded operations. -/

/-- In the unsigned model every size passes the positivity gate. -/
theorem size.is_positive_true (s : size) : s.is_positive = true := by
  simp [size.is_positive]

/-- The size-and-fill constructor never throws: the gate always passes. -/
theorem bitmap.mk_sized_eq {α : Type} (s : size) (v : α) :
    bitmap.mk_sized s v = .ok ⟨s, List.replicate s.point_count v⟩ := by
  simp [bitmap.mk_sized, size.is_positive_true]

/-- Element writes during `std::copy` do not change the length of the
destination buffer. -/
theorem copy_n_length {α : Type} [Inhabited α] (src : List α) (n : Nat) :
    ∀ (so : Nat) (dst : List α) (do_ : Nat),
      (copy_n src so dst do_ n).length = dst.length := by
  induction n with
  | zero => intro so dst do_; rfl
  | succ n ih =>
      intro so dst do_
      rw [copy_n, ih]
      exact List.length_set ..

/-- The row copy loop does not change the length of the destination. -/
theorem copy_rows_length {α : Type} [Inhabited α] (src : List α)
    (sw dw xe : Nat) (dst : List α) (k : Nat) :
    (copy_rows src sw dw xe dst k).length = dst.length := by
  induction k with
  | zero => rfl
  | succ k ih => rw [copy_rows, copy_n_length, ih]

/-- `std::vector::resize(n, v)` yields a buffer of length exactly `n`. -/
theorem vec_resize_length {α : Type} (l : List α) (n : Nat) (v : α) :
    (vec_resize l n v).length = n := by
  unfold vec_resize
  split
  · next h => simp [List.length_take]; omega
  · next h => simp; omega

/-- Elements surviving a `std::vector::resize` keep their values. -/
theorem vec_resize_get_old {α : Type} (l : List α) (n : Nat) (v : α) (i : Nat)
    (h1 : i < l.length) (h2 : i < n) :
    (vec_resize l n v)[i]? = l[i]? := by
  unfold vec_resize
  split
  · rw [List.getElem?_take, if_pos h2]
  · rw [List.getElem?_append_left h1]

/-- Elements appended by a growing `std::vector::resize` equal the fill
value. -/
theorem vec_resize_get_new {α : Type} (l : List α) (n : Nat) (v : α) (i : Nat)
    (h1 : l.length ≤ i) (h2 : i < n) :
    (vec_resize l n v)[i]? = some v := by
  unfold vec_resize
  rw [if_neg (by omega)]
  rw [List.getElem?_append_right h1]
  rw [List.getElem?_replicate, if_pos (by omega)]

/-- Peeling the last row off the row-major coordinate enumeration. -/
theorem row_major_points_succ (w h : Nat) :
    row_major_points ⟨w, h + 1⟩ =
      row_major_points ⟨w, h⟩ ++
        (List.range w).map (fun x => (⟨x, h⟩ : point)) := by
  unfold row_major_points
  rw [show (size.mk w (h + 1)).height = h + 1 from rfl, List.range_succ]
  rw [List.flatMap_append, List.flatMap_cons, List.flatMap_nil, List.append_nil]

/-- Length of the row-major coordinate enumeration. -/
theorem row_major_points_length (w h : Nat) :
    (row_major_points ⟨w, h⟩).length = h * w := by
  induction h with
  | zero => simp [row_major_points]
  | succ h ih =>
      rw [row_major_points_succ, List.length_append, ih, List.length_map,
        List.length_range, Nat.succ_mul]

/-- The coordinate found at offset `y * w + x` of the row-major
enumeration is exactly `(x, y)`. -/
theorem row_major_points_get (w h x y : Nat) (hx : x < w) (hy : y < h) :
    (row_major_points ⟨w, h⟩)[y * w + x]? = some (⟨x, y⟩ : point) := by
  induction h with
  | zero => omega
  | succ h ih =>
      rw [row_major_points_succ]
      by_cases hyh : y < h
      · rw [List.getElem?_append_left, ih hyh]
        calc y * w + x < y * w + w := by omega
        _ = (y + 1) * w := (Nat.succ_mul y w).symm
        _ ≤ (row_major_points ⟨w, h⟩).length := by
            rw [row_major_points_length]; exact Nat.mul_le_mul_right w (by omega)
      · have hyeq : y = h := by omega
        subst hyeq
        rw [List.getElem?_append_right (by rw [row_major_points_length]; omega)]
        rw [row_major_points_length, show y * w + x - y * w = x from by omega]
        rw [List.getElem?_map, List.getElem?_range hx, Option.map_some']

/-- Membership test of `is_point_in_bitmap`, unfolded. -/
theorem is_point_in_bitmap_iff {α : Type} (b : bitmap α) (p : point) :
    is_point_in_bitmap b p = true ↔ (p.x < b.width ∧ p.y < b.height) := by
  unfold is_point_in_bitmap
  by_cases h : p.x < 0 ∨ p.x ≥ b.width ∨ p.y < 0 ∨ p.y ≥ b.height
  · rw [if_pos h]
    constructor
    · intro hcon; simp at hcon
    · intro hin; exfalso; omega
  · rw [if_neg h]
    constructor
    · intro _; omega
    · intro _; rfl

/-- The checked accessor reports `OutOfRange` exactly off the grid. -/
theorem at_checked_error_iff {α : Type} [Inhabited α] (b : bitmap α) (p : point) :
    b.at_checked p = .error .outOfRange ↔ (b.width ≤ p.x ∨ b.height ≤ p.y) := by
  by_cases h : p.x < b.width ∧ p.y < b.height
  · have hb : is_point_in_bitmap b p = true := (is_point_in_bitmap_iff b p).mpr h
    unfold bitmap.at_checked
    rw [hb]
    simp
    omega
  · have hb : is_point_in_bitmap b p = false := by
      rcases Bool.eq_false_or_eq_true (is_point_in_bitmap b p) with h0 | h1
      · exact absurd ((is_point_in_bitmap_iff b p).mp h0) h
      · exact h1
    unfold bitmap.at_checked
    rw [hb]
    simp
    omega

/-! Claim theorems. -/

/-- C1: the spec's concrete scenario run on the code.  A 3×2 grid with
value 5 at (1,0) and 9 at (2,1); `subbitmap` with rect pos (1,0), size
3×2 and fill -1 is claimed to yield `[5, 0, -1, 9, -1, -1]`, with
`result(0,0) = source(rect.x(), rect.y()) = 5`.  The code instead reads
each copied row from the source offset `y * width()` — the top-left
corner, not the rect origin — and returns `[0, 5, -1, 0, 0, -1]`, whose
element (0,0) is 0, not `source(1,0) = 5`. -/
theorem C1_subbitmap_ignores_rect_offset :
    bitmap.subbitmap (⟨⟨3, 2⟩, [0, 5, 0, 0, 0, 9]⟩ : bitmap Int)
        ⟨⟨1, 0⟩, ⟨3, 2⟩⟩ (-1) = .ok ⟨⟨3, 2⟩, [0, 5, -1, 0, 0, -1]⟩
    ∧ (⟨⟨3, 2⟩, [0, 5, 0, 0, 0, 9]⟩ : bitmap Int).at_checked ⟨1, 0⟩ = .ok 5
    ∧ (⟨⟨3, 2⟩, [0, 5, -1, 0, 0, -1]⟩ : bitmap Int).at_checked ⟨0, 0⟩ = .ok 0
    ∧ (0 : Int) ≠ 5 :=
  ⟨rfl, rfl, rfl, by decide⟩

/-- C2 counterexample: resizing a 1×1 grid holding 7 to 2×1 with fill 0
keeps the old element: the result data is `[7, 0]`, so it is false that
every element equals the fill value. -/
theorem C2_resize_not_destructive :
    bitmap.resize (⟨⟨1, 1⟩, [7]⟩ : bitmap Int) ⟨2, 1⟩ 0 =
      .ok ⟨⟨2, 1⟩, [7, 0]⟩
    ∧ ¬ (∀ a ∈ ([7, 0] : List Int), a = 0) :=
  ⟨rfl, by decide⟩

/-- C2 amended: after `G.resize(s, v)` the point count is
`s.point_count()` and the data field has exactly that length, but the
resize is `std::vector::resize`: elements at offsets that already
existed keep their prior values, and only offsets beyond the old data
length are filled with `v`. -/
theorem C2_resize_amended {α : Type} (b : bitmap α) (s : size) (v : α)
    (b' : bitmap α) (h : b.resize s v = .ok b') :
    b'.point_count = s.point_count
    ∧ b'.data_.length = s.point_count
    ∧ (∀ i, b.data_.length ≤ i → i < s.point_count → b'.data_[i]? = some v)
    ∧ (∀ i, i < b.data_.length → i < s.point_count → b'.data_[i]? = b.data_[i]?) := by
  unfold bitmap.resize at h
  rw [size.is_positive_true] at h
  simp only [Bool.not_true, Bool.false_eq_true, if_false, Except.ok.injEq] at h
  subst h
  refine ⟨rfl, vec_resize_length .., ?_, ?_⟩
  · intro i h1 h2
    exact vec_resize_get_new b.data_ s.point_count v i h1 h2
  · intro i h1 h2
    exact vec_resize_get_old b.data_ s.point_count v i h1 h2

/-- C2 amended, witness: the concrete resize of the counterexample. -/
theorem C2_resize_amended_witness :
    (⟨⟨2, 1⟩, [7, 0]⟩ : bitmap Int).point_count = (size.mk 2 1).point_count
    ∧ (⟨⟨2, 1⟩, [7, 0]⟩ : bitmap Int).data_.length = (size.mk 2 1).point_count
    ∧ (∀ i, (⟨⟨1, 1⟩, [7]⟩ : bitmap Int).data_.length ≤ i →
        i < (size.mk 2 1).point_count →
        (⟨⟨2, 1⟩, [7, 0]⟩ : bitmap Int).data_[i]? = some 0)
    ∧ (∀ i, i < (⟨⟨1, 1⟩, [7]⟩ : bitmap Int).data_.length →
        i < (size.mk 2 1).point_count →
        (⟨⟨2, 1⟩, [7, 0]⟩ : bitmap Int).data_[i]? =
          (⟨⟨1, 1⟩, [7]⟩ : bitmap Int).data_[i]?) :=
  C2_resize_amended ⟨⟨1, 1⟩, [7]⟩ ⟨2, 1⟩ 0 ⟨⟨2, 1⟩, [7, 0]⟩ rfl

/-- C3: when the rect origin lies outside the source
(`rect.x() >= width` or `rect.y() >= height`), `subbitmap` does not
fail: it returns a grid of size `rect.size()` every element of which is
the fill value. -/
theorem C3_subbitmap_outside_origin {α : Type} [Inhabited α] (b : bitmap α)
    (r : rect) (v : α) (h : b.width ≤ r.x ∨ b.height ≤ r.y) :
    ∃ g : bitmap α, b.subbitmap r v = .ok g ∧ g.size_ = r.size ∧
      g.data_.length = r.size.point_count ∧ ∀ a ∈ g.data_, a = v := by
  refine ⟨⟨r.size, List.replicate r.size.point_count v⟩, ?_, rfl, by simp, ?_⟩
  · unfold bitmap.subbitmap
    rw [bitmap.mk_sized_eq]
    simp only [if_pos h]
  · intro a ha
    exact List.eq_of_mem_replicate ha

/-- C3 witness: a 2×2 source, a 2×3 rect with origin at x = 5. -/
theorem C3_subbitmap_outside_origin_witness :
    ∃ g : bitmap Int,
      (⟨⟨2, 2⟩, [1, 2, 3, 4]⟩ : bitmap Int).subbitmap ⟨⟨5, 0⟩, ⟨2, 3⟩⟩ 7 = .ok g
      ∧ g.size_ = (⟨⟨5, 0⟩, ⟨2, 3⟩⟩ : rect).size
      ∧ g.data_.length = (⟨⟨5, 0⟩, ⟨2, 3⟩⟩ : rect).size.point_count
      ∧ ∀ a ∈ g.data_, a = 7 :=
  C3_subbitmap_outside_origin ⟨⟨2, 2⟩, [1, 2, 3, 4]⟩ ⟨⟨5, 0⟩, ⟨2, 3⟩⟩ 7
    (Or.inl (by decide))

/-- C4: constructing from a size and a sequence of exactly
`size.point_count()` elements succeeds, and iterating the result in
forward (row-major storage) order reproduces the input sequence. -/
theorem C4_sequence_roundtrip {α : Type} (s : size) (src : List α)
    (h : src.length = s.point_count) :
    ∃ g : bitmap α, bitmap.mk_seq s src = .ok g ∧ g.toList = src := by
  refine ⟨⟨s, src⟩, ?_, rfl⟩
  unfold bitmap.mk_seq
  rw [size.is_positive_true]
  simp [h]

/-- C4 witness: a 2×2 grid built from the sequence `[1, 2, 3, 4]`. -/
theorem C4_sequence_roundtrip_witness :
    ∃ g : bitmap Int, bitmap.mk_seq ⟨2, 2⟩ [1, 2, 3, 4] = .ok g
      ∧ g.toList = [1, 2, 3, 4] :=
  C4_sequence_roundtrip ⟨2, 2⟩ [1, 2, 3, 4] (by decide)

/-- Unfolding of `subbitmap`: the allocation never throws, so the call
reduces to the fill-only result or the row-copied result. -/
theorem bitmap.subbitmap_eq {α : Type} [Inhabited α] (b : bitmap α) (r : rect)
    (v : α) :
    b.subbitmap r v =
      if b.width ≤ r.x ∨ b.height ≤ r.y then
        .ok ⟨r.size, List.replicate r.size.point_count v⟩
      else
        .ok ⟨r.size, copy_rows b.data_ b.width r.width
          (min r.width (b.width - r.x))
          (List.replicate r.size.point_count v)
          (min r.height (b.height - r.y))⟩ := by
  unfold bitmap.subbitmap
  rw [bitmap.mk_sized_eq]

/-- C5: the sequence constructor reports the shape mismatch exactly when
the sequence length differs from `size.point_count()`; when it reports
it, no grid is produced; and no other operation ever reports a shape
mismatch. -/
theorem C5_shape_mismatch_only_seq {α : Type} [Inhabited α]
    (s : size) (src : List α) :
    (bitmap.mk_seq s src = .error .shapeMismatch ↔
      src.length ≠ s.point_count)
    ∧ (∀ g : bitmap α, bitmap.mk_seq s src = .error .shapeMismatch →
        bitmap.mk_seq s src ≠ .ok g)
    ∧ (∀ v : α, bitmap.mk_sized s v ≠ .error .shapeMismatch)
    ∧ (∀ (w h : Nat) (v : α), bitmap.mk_wh w h v ≠ .error .shapeMismatch)
    ∧ (∀ (b : bitmap α) (s2 : size) (v : α),
        b.resize s2 v ≠ .error .shapeMismatch)
    ∧ (∀ (b : bitmap α) (p : point),
        b.at_checked p ≠ .error .shapeMismatch)
    ∧ (∀ (b : bitmap α) (p : point) (v : α),
        b.set_checked p v ≠ .error .shapeMismatch)
    ∧ (∀ (b : bitmap α) (r : rect) (v : α),
        b.subbitmap r v ≠ .error .shapeMismatch) := by
  refine ⟨?_, ?_, ?_, ?_, ?_, ?_, ?_, ?_⟩
  · unfold bitmap.mk_seq
    rw [size.is_positive_true]
    by_cases hlen : src.length = s.point_count
    · simp [hlen]
    · simp [hlen]
  · intro g herr hok
    rw [herr] at hok
    simp at hok
  · intro v hcon
    rw [bitmap.mk_sized_eq] at hcon
    simp at hcon
  · intro w h v hcon
    unfold bitmap.mk_wh at hcon
    rw [bitmap.mk_sized_eq] at hcon
    simp at hcon
  · intro b s2 v hcon
    unfold bitmap.resize at hcon
    rw [size.is_positive_true] at hcon
    simp at hcon
  · intro b p hcon
    unfold bitmap.at_checked at hcon
    split at hcon <;> simp at hcon
  · intro b p v hcon
    unfold bitmap.set_checked at hcon
    split at hcon <;> simp at hcon
  · intro b r v hcon
    rw [bitmap.subbitmap_eq] at hcon
    split at hcon <;> simp at hcon

/-- C5 witness: the mismatch criterion at a 2×2 size and a length-3
sequence. -/
theorem C5_shape_mismatch_only_seq_witness :
    bitmap.mk_seq ⟨2, 2⟩ ([1, 2, 3] : List Int) = .error .shapeMismatch ↔
      ([1, 2, 3] : List Int).length ≠ (size.mk 2 2).point_count :=
  (C5_shape_mismatch_only_seq ⟨2, 2⟩ [1, 2, 3]).1

/-- C6: on a grid with positive width and height, checked access fails
with `OutOfRange` exactly when `x >= width` or `y >= height`; in
particular it fails at `(width, 0)` and `(0, height)` and succeeds at
`(width-1, height-1)`, returning the stored element at the row-major
offset `(height-1)*width + (width-1)`. -/
theorem C6_checked_access_bounds {α : Type} [Inhabited α] (b : bitmap α)
    (hw : 1 ≤ b.width) (hh : 1 ≤ b.height) :
    (∀ p : point, b.at_checked p = .error .outOfRange ↔
      (b.width ≤ p.x ∨ b.height ≤ p.y))
    ∧ b.at_checked ⟨b.width, 0⟩ = .error .outOfRange
    ∧ b.at_checked ⟨0, b.height⟩ = .error .outOfRange
    ∧ b.at_checked ⟨b.width - 1, b.height - 1⟩ =
        .ok (b.data_.getD ((b.height - 1) * b.width + (b.width - 1)) default) := by
  refine ⟨fun p => at_checked_error_iff b p, ?_, ?_, ?_⟩
  · exact (at_checked_error_iff b ⟨b.width, 0⟩).mpr (Or.inl (le_refl _))
  · exact (at_checked_error_iff b ⟨0, b.height⟩).mpr (Or.inr (le_refl _))
  · have hin : is_point_in_bitmap b ⟨b.width - 1, b.height - 1⟩ = true :=
      (is_point_in_bitmap_iff b _).mpr
        ⟨by show b.width - 1 < b.width; omega,
         by show b.height - 1 < b.height; omega⟩
    unfold bitmap.at_checked
    rw [hin]
    rfl

/-- C6 witness: the 2×2 grid `[1, 2, 3, 4]`. -/
theorem C6_checked_access_bounds_witness :
    (⟨⟨2, 2⟩, [1, 2, 3, 4]⟩ : bitmap Int).at_checked ⟨2, 0⟩ = .error .outOfRange
    ∧ (⟨⟨2, 2⟩, [1, 2, 3, 4]⟩ : bitmap Int).at_checked ⟨0, 2⟩ = .error .outOfRange
    ∧ (⟨⟨2, 2⟩, [1, 2, 3, 4]⟩ : bitmap Int).at_checked ⟨1, 1⟩ = .ok 4 :=
  ⟨(C6_checked_access_bounds ⟨⟨2, 2⟩, [1, 2, 3, 4]⟩ (by decide) (by decide)).2.1,
   (C6_checked_access_bounds ⟨⟨2, 2⟩, [1, 2, 3, 4]⟩ (by decide) (by decide)).2.2.1,
   (C6_checked_access_bounds ⟨⟨2, 2⟩, [1, 2, 3, 4]⟩ (by decide) (by decide)).2.2.2⟩

/-- C7: `data_pos` computes `y * width + x` for every coordinate pair,
checked or not, and for in-range coordinates this offset is exactly the
position of `(x, y)` in the row-major enumeration of the grid's
coordinates. -/
theorem C7_data_pos_row_major {α : Type} (b : bitmap α) (p : point) :
    b.data_pos p = p.y * b.width + p.x
    ∧ (p.x < b.width → p.y < b.height →
        (row_major_points b.size_)[b.data_pos p]? = some p) := by
  refine ⟨rfl, ?_⟩
  intro hx hy
  obtain ⟨⟨w, h⟩, d⟩ := b
  obtain ⟨x, y⟩ := p
  exact row_major_points_get w h x y hx hy

/-- C7 witness: offset of (2, 1) in a 3×2 grid. -/
theorem C7_data_pos_row_major_witness :
    (⟨⟨3, 2⟩, [0, 5, 0, 0, 0, 9]⟩ : bitmap Int).data_pos ⟨2, 1⟩ = 1 * 3 + 2
    ∧ (row_major_points ⟨3, 2⟩)[(⟨⟨3, 2⟩, [0, 5, 0, 0, 0, 9]⟩ :
        bitmap Int).data_pos ⟨2, 1⟩]? = some ⟨2, 1⟩ :=
  ⟨(C7_data_pos_row_major ⟨⟨3, 2⟩, [0, 5, 0, 0, 0, 9]⟩ ⟨2, 1⟩).1,
   (C7_data_pos_row_major ⟨⟨3, 2⟩, [0, 5, 0, 0, 0, 9]⟩ ⟨2, 1⟩).2
     (by decide) (by decide)⟩

/-- C8: every grid reachable through the public interface keeps the
storage invariant: the data length equals `width() * height()`, which is
also `point_count()`. -/
theorem C8_storage_length_invariant {α : Type} [Inhabited α] (b : bitmap α)
    (h : reachable α b) :
    b.data_.length = b.width * b.height ∧ b.data_.length = b.point_count := by
  have key : b.data_.length = b.size_.point_count := by
    induction h with
    | default_bitmap => rfl
    | of_mk_sized s v g hg =>
        rw [bitmap.mk_sized_eq] at hg
        injection hg with hg
        subst hg
        simp [size.point_count]
    | of_mk_seq s l g hg =>
        unfold bitmap.mk_seq at hg
        rw [size.is_positive_true] at hg
        simp only [Bool.not_true, Bool.false_eq_true, if_false] at hg
        split at hg
        · exact absurd hg (by simp)
        · next hlen =>
            injection hg with hg
            subst hg
            exact not_ne_iff.mp hlen
    | of_mk_wh w h v g hg =>
        unfold bitmap.mk_wh at hg
        rw [bitmap.mk_sized_eq] at hg
        injection hg with hg
        subst hg
        simp [size.point_count]
    | of_resize b s v g hb hg ih =>
        unfold bitmap.resize at hg
        rw [size.is_positive_true] at hg
        simp only [Bool.not_true, Bool.false_eq_true, if_false,
          Except.ok.injEq] at hg
        subst hg
        exact vec_resize_length b.data_ s.point_count v
    | of_set b p v g hb hg ih =>
        unfold bitmap.set_checked at hg
        split at hg
        · exact absurd hg (by simp)
        · injection hg with hg
          subst hg
          rw [List.length_set]
          exact ih
    | of_subbitmap b r v g hb hg ih =>
        rw [bitmap.subbitmap_eq] at hg
        split at hg
        · injection hg with hg
          subst hg
          simp [size.point_count]
        · injection hg with hg
          subst hg
          rw [copy_rows_length, List.length_replicate]
  exact ⟨key, key⟩

/-- C8 witness: a 2×1 grid built from a sequence. -/
theorem C8_storage_length_invariant_witness :
    (⟨⟨2, 1⟩, [3, 4]⟩ : bitmap Int).data_.length =
      (⟨⟨2, 1⟩, [3, 4]⟩ : bitmap Int).width *
        (⟨⟨2, 1⟩, [3, 4]⟩ : bitmap Int).height
    ∧ (⟨⟨2, 1⟩, [3, 4]⟩ : bitmap Int).data_.length =
      (⟨⟨2, 1⟩, [3, 4]⟩ : bitmap Int).point_count :=
  C8_storage_length_invariant ⟨⟨2, 1⟩, [3, 4]⟩
    (reachable.of_mk_seq ⟨2, 1⟩ [3, 4] ⟨⟨2, 1⟩, [3, 4]⟩ rfl)

/-- C9: `subbitmap` is a const operation on a separately owned result:
the call leaves the source component of the caller's state unchanged,
writing an element of the result changes no element read from the
source, and writing an element of the source changes no element read
from the previously returned result. -/
theorem C9_subbitmap_no_aliasing {α : Type} [Inhabited α] (b g : bitmap α)
    (r : rect) (v w : α) (p : point)
    (hcall : b.subbitmap r v = .ok g) :
    (b.subbitmap_call r v).1 = b
    ∧ (b.subbitmap_call r v).2 = .ok g
    ∧ (∀ q : point, (write_result (b, g) p w).1.at_checked q = b.at_checked q)
    ∧ (∀ q : point, (write_source (b, g) p w).2.at_checked q = g.at_checked q) :=
  ⟨rfl, hcall, fun _ => rfl, fun _ => rfl⟩

/-- C9 witness: a 1×1 sub-bitmap of a 2×2 grid, then writes on either
side. -/
theorem C9_subbitmap_no_aliasing_witness :
    ((⟨⟨2, 2⟩, [1, 2, 3, 4]⟩ : bitmap Int).subbitmap_call ⟨⟨0, 0⟩, ⟨1, 1⟩⟩ 9).1 =
      ⟨⟨2, 2⟩, [1, 2, 3, 4]⟩
    ∧ ((⟨⟨2, 2⟩, [1, 2, 3, 4]⟩ : bitmap Int).subbitmap_call ⟨⟨0, 0⟩, ⟨1, 1⟩⟩ 9).2 =
      .ok ⟨⟨1, 1⟩, [1]⟩
    ∧ (∀ q : point,
        (write_result (⟨⟨2, 2⟩, [1, 2, 3, 4]⟩, ⟨⟨1, 1⟩, [1]⟩) ⟨0, 0⟩
          (42 : Int)).1.at_checked q =
        (⟨⟨2, 2⟩, [1, 2, 3, 4]⟩ : bitmap Int).at_checked q)
    ∧ (∀ q : point,
        (write_source (⟨⟨2, 2⟩, [1, 2, 3, 4]⟩, ⟨⟨1, 1⟩, [1]⟩) ⟨0, 0⟩
          (42 : Int)).2.at_checked q =
        (⟨⟨1, 1⟩, [1]⟩ : bitmap Int).at_checked q) :=
  C9_subbitmap_no_aliasing ⟨⟨2, 2⟩, [1, 2, 3, 4]⟩ ⟨⟨1, 1⟩, [1]⟩
    ⟨⟨0, 0⟩, ⟨1, 1⟩⟩ 9 42 ⟨0, 0⟩ rfl

/-- C10: `resize` keeps the prior values of every linear offset that the
old and new storage have in common, and fills precisely the offsets
beyond the old point count with the fill value. -/
theorem C10_resize_keeps_common_offsets {α : Type} (b : bitmap α)
    (s : size) (v : α) (b' : bitmap α)
    (hinv : b.data_.length = b.point_count)
    (h : b.resize s v = .ok b') :
    (∀ i, i < min b.point_count s.point_count → b'.data_[i]? = b.data_[i]?)
    ∧ (∀ i, b.point_count ≤ i → i < s.point_count → b'.data_[i]? = some v) := by
  unfold bitmap.resize at h
  rw [size.is_positive_true] at h
  simp only [Bool.not_true, Bool.false_eq_true, if_false, Except.ok.injEq] at h
  subst h
  constructor
  · intro i hi
    exact vec_resize_get_old b.data_ s.point_count v i (by omega) (by omega)
  · intro i h1 h2
    exact vec_resize_get_new b.data_ s.point_count v i (by omega) h2

/-- C10 witness: growing a 2×1 grid `[7, 8]` to 3×1 with fill 5 keeps
the two old elements and appends the fill. -/
theorem C10_resize_keeps_common_offsets_witness :
    (∀ i, i < min (⟨⟨2, 1⟩, [7, 8]⟩ : bitmap Int).point_count
        (size.mk 3 1).point_count →
      (⟨⟨3, 1⟩, [7, 8, 5]⟩ : bitmap Int).data_[i]? =
        (⟨⟨2, 1⟩, [7, 8]⟩ : bitmap Int).data_[i]?)
    ∧ (∀ i, (⟨⟨2, 1⟩, [7, 8]⟩ : bitmap Int).point_count ≤ i →
        i < (size.mk 3 1).point_count →
        (⟨⟨3, 1⟩, [7, 8, 5]⟩ : bitmap Int).data_[i]? = some 5) :=
  C10_resize_keeps_common_offsets ⟨⟨2, 1⟩, [7, 8]⟩ ⟨3, 1⟩ 5
    ⟨⟨3, 1⟩, [7, 8, 5]⟩ rfl rfl
